import Mathlib

/-!
Verification of the storage-orchestration and scope-resolution core of
`ragged_memory`, shallowly embedded in Lean 4.

Modelling conventions, all translated from the Python source under `src/ram/`:

* Filesystem paths handled by the storage manager are plain strings; the
  directories walked by project detection are lists of path components with
  the innermost component first, so the parent of `c :: rest` is `rest` and
  the filesystem root is `[]` (its own parent, as on POSIX).
* External collaborators (the Chonkie chunker, the sentence-transformers
  encoder, SHA-256, the wall clock, the on-disk state touched by LanceDB)
  are function or state parameters; the repository's own logic around them
  is embedded verbatim.
* Python exceptions raised by this code (`ValueError`) become `Except String`
  results carrying the exact message from the source.
-/

namespace RaggedMemory

/-- `StorageScope` enum from `src/ram/storage/scope.py`: the visibility
boundary for stored memories, with string values "local" and "global". -/
inductive StorageScope where
  | LOCAL
  | GLOBAL
deriving DecidableEq, Repr

/-- Python `StorageScope(value)` enum lookup by value: returns the member
whose value matches, and fails (Python raises `ValueError`) otherwise. -/
def StorageScope.ofValue : String → Option StorageScope
  | "local" => some .LOCAL
  | "global" => some .GLOBAL
  | _ => none

/-- `Config` dataclass from `src/ram/storage/config.py`. `global_dir` holds
the string rendering of the `Path` after `expanduser`. -/
structure Config where
  embedding_model : String
  vector_dimensions : Nat
  default_scope : StorageScope
  auto_init_local : Bool
  global_dir : String
  local_dir : String
deriving DecidableEq, Repr

/-- The parsed content of a `config.toml` file, restricted to the keys
`Config.load` recognizes. A field is `none` when the key (or its whole
section) is absent from the file; `Config.load` merges the file into the
defaults dict per key (`dict.update`), so each recognized key ends at the
loaded value when present and at its default otherwise. -/
structure TomlFile where
  embedding_model : Option String := none
  vector_dimensions : Option Nat := none
  default_scope : Option String := none
  auto_init_local : Option Bool := none
  global_dir : Option String := none
  local_dir : Option String := none
deriving DecidableEq, Repr

/-- `Path.expanduser`: replaces a leading `~` with the user's home
directory (the `home` parameter); other paths are returned unchanged. -/
def expanduser (home s : String) : String :=
  if s = "~" then home
  else if "~/".isPrefixOf s then home ++ s.drop 1
  else s

/-- `Config.load` from `src/ram/storage/config.py` lines 30-76: start from
the built-in defaults dict; if a config file exists (`file = some t`),
update each recognized section per key with the loaded values; then build
the `Config` from the merged values. `StorageScope(...)` on an invalid
`default_scope` string raises, modelled as `.error`. The file's parsed
content is the `TomlFile` parameter; `home` feeds `expanduser`. -/
def Config.load (home : String) (file : Option TomlFile) : Except String Config :=
  let f : TomlFile := match file with
    | none => {}
    | some t => t
  match StorageScope.ofValue (f.default_scope.getD "local") with
  | none => .error "is not a valid StorageScope"
  | some sc =>
    .ok { embedding_model := f.embedding_model.getD "sentence-transformers/all-MiniLM-L6-v2"
          vector_dimensions := f.vector_dimensions.getD 384
          default_scope := sc
          auto_init_local := f.auto_init_local.getD true
          global_dir := expanduser home (f.global_dir.getD "~/.ragged_memory")
          local_dir := f.local_dir.getD ".ragged_memory" }

/-- `Config.get_global_dir` from `src/ram/storage/config.py` lines 78-84:
expands the stored global directory path. -/
def Config.get_global_dir (c : Config) (home : String) : String :=
  expanduser home c.global_dir

/-- `ProjectContext` from `src/ram/storage/context.py`, as consumed by the
storage manager and the CLI: carries the detected project root (a rendered
path string), or `none` when no project was detected. -/
structure ProjectContext where
  project_root : Option String
deriving DecidableEq, Repr

/-- `ProjectContext.store_path` (context.py lines 23-25): `project_root /
".ragged_memory"` when a root was detected, else `None`. -/
def ProjectContext.store_path (c : ProjectContext) : Option String :=
  c.project_root.map (fun r => r ++ "/.ragged_memory")

/-- `get_active_scope` from `src/ram/cli/common.py` lines 10-57. The Python
function loads `config`/`context` itself when they are passed as `None`;
here they are always supplied, which covers every loaded value. Conflicting
flags raise `ValueError` (modelled as `.error`) before any other logic. -/
def get_active_scope (global_flag local_flag : Bool) (config : Config)
    (context : ProjectContext) : Except String StorageScope :=
  if global_flag && local_flag then
    .error "Cannot specify both --global and --local flags"
  else if global_flag then .ok .GLOBAL
  else if local_flag then .ok .LOCAL
  else if context.project_root.isSome then .ok .LOCAL
  else .ok .GLOBAL

/-- `MemoryStore` construction state from `src/ram/storage/store.py` lines
19-28: the scope and the LanceDB directory path (`table_name` is the fixed
literal "memories" for every store and is left implicit). -/
structure MemoryStore where
  scope : StorageScope
  db_path : String
deriving DecidableEq, Repr

/-- The filesystem state the storage manager reads and writes: whether the
global store directory exists, the content of the global `config.toml` if
that file exists, and a counter of the writes made to that file
(`config_path.write_text` calls), used to state "writes exactly once". -/
structure FS where
  globalDirExists : Bool
  globalConfigFile : Option String
  globalConfigWrites : Nat
deriving DecidableEq, Repr

/-- The default `config.toml` content seeded by
`StorageManager._initialize_global_store` (`src/ram/storage/manager.py`
lines 73-84), verbatim. -/
def DEFAULT_CONFIG_TOML : String :=
  "[storage]\nembedding_model = \"sentence-transformers/all-MiniLM-L6-v2\"\nvector_dimensions = 384\n\n[scope]\ndefault_scope = \"local\"\nauto_init_local = true\n\n[paths]\nglobal_dir = \"~/.ragged_memory\"\nlocal_dir = \".ragged_memory\"\n"

/-- The result of parsing `DEFAULT_CONFIG_TOML` with `tomllib` (an external
collaborator): the literal has three sections whose keys carry exactly
these values, so every recognized key is present. -/
def defaultConfigToml : TomlFile :=
  { embedding_model := some "sentence-transformers/all-MiniLM-L6-v2"
    vector_dimensions := some 384
    default_scope := some "local"
    auto_init_local := some true
    global_dir := some "~/.ragged_memory"
    local_dir := some ".ragged_memory" }

/-- `StorageManager._initialize_global_store` from
`src/ram/storage/manager.py` lines 61-85: `store.initialize()` creates the
global directory (idempotent `mkdir`), then writes the default
`config.toml` only if that file does not already exist. -/
def StorageManager.initializeGlobalStore (fs : FS) : FS :=
  let fs1 : FS := { fs with globalDirExists := true }
  if fs1.globalConfigFile.isNone then
    { fs1 with
      globalConfigFile := some DEFAULT_CONFIG_TOML
      globalConfigWrites := fs1.globalConfigWrites + 1 }
  else fs1

/-- `StorageManager.get_store` from `src/ram/storage/manager.py` lines
29-59. A `None` scope is replaced by `config.default_scope`; LOCAL requires
a detected project root and raises `ValueError` otherwise (modelled as
`.error`, filesystem untouched); GLOBAL builds the store at the expanded
global directory and auto-initializes it when `store.exists()` is false.
The returned pair carries the outcome and the filesystem state after the
call. -/
def StorageManager.get_store (home : String) (config : Config)
    (context : ProjectContext) (fs : FS) (scope? : Option StorageScope) :
    Except String MemoryStore × FS :=
  let scope := match scope? with
    | none => config.default_scope
    | some s => s
  match scope with
  | .LOCAL =>
    match context.project_root with
    | none => (.error "No project detected. Run 'ram init' to create a local store.", fs)
    | some root => (.ok ⟨.LOCAL, root ++ "/.ragged_memory"⟩, fs)
  | .GLOBAL =>
    let store : MemoryStore := ⟨.GLOBAL, config.get_global_dir home⟩
    if fs.globalDirExists then (.ok store, fs)
    else (.ok store, StorageManager.initializeGlobalStore fs)

/-- Scope determination inside the `add` command, `src/ram/cli/commands/add.py`
lines 74-82: explicit flags first; with neither flag the scope starts from
`config.default_scope` and is overridden to LOCAL when a project root was
detected. -/
def addCommandScope (global_flag local_flag : Bool) (config : Config)
    (context : ProjectContext) : StorageScope :=
  if global_flag then .GLOBAL
  else if local_flag then .LOCAL
  else
    let scope := config.default_scope
    if context.project_root.isSome then .LOCAL else scope

/-- A directory for project detection: the list of path components of an
absolute path with the innermost component first, so `Path("/")` is `[]`
and `.parent` of `c :: rest` is `rest` (the parent of the root is the root
itself, as on POSIX). -/
abbrev Dir := List String

/-- `ProjectContext._detect_project_root` from `src/ram/storage/context.py`
lines 27-49: walk upward from `start` while the directory differs from its
parent (i.e. until the filesystem root `[]`); at each step return the
current directory if it contains a `.ragged_memory` marker, else if it
contains a `.git` marker; else move to the parent. The filesystem is the
pair of predicates `hasRagged`/`hasGit` telling which directories contain
each marker. -/
def detect_project_root (hasRagged hasGit : Dir → Bool) : Dir → Option Dir
  | [] => none
  | c :: rest =>
    if hasRagged (c :: rest) then some (c :: rest)
    else if hasGit (c :: rest) then some (c :: rest)
    else detect_project_root hasRagged hasGit rest

/-- `Chunk` dataclass from `src/ram/models/chunk.py`. -/
structure Chunk where
  text : String
  start_index : Nat
  end_index : Nat
  chunk_index : Nat
deriving DecidableEq, Repr

/-- A chunk as returned by Chonkie's `SemanticChunker` (external
collaborator): text plus its start offset. -/
structure ChonkieChunk where
  text : String
  start_index : Nat
deriving DecidableEq, Repr

/-- `FileChunker.chunk` from `src/ram/indexing/chunker.py` lines 29-52:
convert the Chonkie chunks to the `Chunk` model, with `chunk_index` the
zero-based enumeration position and `end_index = start_index + len(text)`.
The external `SemanticChunker.chunk` call is the input list. -/
def FileChunker.chunk (cs : List ChonkieChunk) : List Chunk :=
  cs.enum.map fun ic =>
    { text := ic.2.text
      start_index := ic.2.start_index
      end_index := ic.2.start_index + ic.2.text.length
      chunk_index := ic.1 }

/-- `EmbeddingGenerator.generate` from `src/ram/indexing/embedder.py` lines
29-47: extract the text of each chunk and hand the batch to the external
model's `encode` (the `encode` parameter), which returns one vector per
input in order — or not: nothing in this code checks the length. Vectors
are opaque values of type `V`. -/
def EmbeddingGenerator.generate (V : Type) (encode : List String → List V)
    (chunks : List Chunk) : List V :=
  encode (chunks.map (fun c => c.text))

/-- One index entry dict built by `FileIndexer.process_file`
(`src/ram/indexing/indexer.py` lines 53-64). -/
structure IndexEntry (V : Type) where
  text : String
  vector : V
  file_path : String
  chunk_index : Nat
  chunk_size : Nat
  timestamp : String
  file_hash : String
deriving DecidableEq, Repr

/-- `FileIndexer.process_file` from `src/ram/indexing/indexer.py` lines
28-66: hash the file content (the external `sha256hex`), chunk it via
`FileChunker.chunk` over the external Chonkie chunker, embed the batch via
`EmbeddingGenerator.generate`, then build one entry per element of
`zip(chunks, embeddings)` — each loop iteration calls
`datetime.utcnow().isoformat() + "Z"`, modelled by the clock stream
`clock`, whose `i`-th sample is the reading taken while building the `i`-th
entry. -/
def FileIndexer.process_file (V : Type) (sha256hex : String → String)
    (clock : Nat → String) (chonkie : String → List ChonkieChunk)
    (encode : List String → List V) (file_path content : String) :
    List (IndexEntry V) :=
  let file_hash := sha256hex content
  let chunks := FileChunker.chunk (chonkie content)
  let embeddings := EmbeddingGenerator.generate V encode chunks
  (chunks.zip embeddings).enum.map fun ice =>
    { text := ice.2.1.text
      vector := ice.2.2
      file_path := file_path
      chunk_index := ice.2.1.chunk_index
      chunk_size := ice.2.1.text.length
      timestamp := clock ice.1
      file_hash := file_hash }

/-- The LanceDB table of a store as seen through `add_chunks` and
`check_file_exists`: `none` when the table has never been created
(`db.open_table` raises), `some rows` otherwise. -/
abbrev Table (V : Type) := Option (List (IndexEntry V))

/-- `MemoryStore.add_chunks` from `src/ram/storage/store.py` lines 57-72:
append to the table when `open_table` succeeds, otherwise create the table
seeded with the given chunks. -/
def MemoryStore.add_chunks (V : Type) (tbl : Table V)
    (chunks : List (IndexEntry V)) : Table V :=
  match tbl with
  | some rows => some (rows ++ chunks)
  | none => some chunks

/-- `MemoryStore.check_file_exists` from `src/ram/storage/store.py` lines
74-95: when the table does not exist (`open_table` raises) return `false`;
otherwise return `false` on an empty table and else whether any row's
`file_hash` equals the query. -/
def MemoryStore.check_file_exists (V : Type) (tbl : Table V)
    (file_hash : String) : Bool :=
  match tbl with
  | none => false
  | some rows =>
    if rows.isEmpty then false
    else rows.any (fun r => r.file_hash == file_hash)

/-! ## Helper lemmas -/

/-- Mapping a function of the index over an enumerated list is mapping it
over the range of positions. -/
theorem enum_map_index {α β : Type} (g : Nat → β) (l : List α) :
    l.enum.map (fun p => g p.1) = (List.range l.length).map g := by
  conv_rhs => rw [← List.enum_map_fst l, List.map_map]
  rfl

/-- Mapping a function of the element over an enumerated list drops the
enumeration. -/
theorem enum_map_value {α β : Type} (f : α → β) (l : List α) :
    l.enum.map (fun p => f p.2) = l.map f := by
  conv_rhs => rw [← List.enum_map_snd l, List.map_map]
  rfl

/-! ## Claims -/

/-- Claim C1: for every combination of inputs, `get_active_scope` returns
GLOBAL when `explicit_global` is true, otherwise LOCAL when
`explicit_local` is true, otherwise LOCAL when `context.project_root` is
set, otherwise GLOBAL regardless of `config.default_scope`; and when both
flags are true it fails with the invalid-arguments `ValueError` before any
other logic runs, independent of the config and context values. -/
theorem get_active_scope_resolution_order :
    (∀ (cfg : Config) (ctx : ProjectContext),
      get_active_scope true true cfg ctx =
        .error "Cannot specify both --global and --local flags") ∧
    (∀ (cfg : Config) (ctx : ProjectContext),
      get_active_scope true false cfg ctx = .ok .GLOBAL) ∧
    (∀ (cfg : Config) (ctx : ProjectContext),
      get_active_scope false true cfg ctx = .ok .LOCAL) ∧
    (∀ (cfg : Config) (r : String),
      get_active_scope false false cfg ⟨some r⟩ = .ok .LOCAL) ∧
    (∀ (cfg : Config),
      get_active_scope false false cfg ⟨none⟩ = .ok .GLOBAL) :=
  ⟨fun _ _ => rfl, fun _ _ => rfl, fun _ _ => rfl, fun _ _ => rfl, fun _ => rfl⟩

/-- Claim C2: `check_file_exists` returns false for every hash on a store
whose collection has never been written (the collection's absence is an
answer, not an error), and returns true immediately after a batch
containing a record bearing that hash is appended via `add_chunks`. -/
theorem check_file_exists_dedup :
    (∀ (V : Type) (h : String),
      MemoryStore.check_file_exists V none h = false) ∧
    (∀ (V : Type) (tbl : Table V) (chunks : List (IndexEntry V)) (h : String),
      (∃ e ∈ chunks, e.file_hash = h) →
      MemoryStore.check_file_exists V (MemoryStore.add_chunks V tbl chunks) h = true) := by
  refine ⟨fun _ _ => rfl, ?_⟩
  rintro V tbl chunks h ⟨e, he, hh⟩
  have hne : chunks ≠ [] := by
    rintro rfl
    exact absurd he (List.not_mem_nil e)
  have hany : chunks.any (fun r => r.file_hash == h) = true :=
    List.any_eq_true.mpr ⟨e, he, by simp [hh]⟩
  cases tbl with
  | none =>
    simp only [MemoryStore.add_chunks, MemoryStore.check_file_exists]
    simp [List.isEmpty_iff, hne, hany]
  | some rows =>
    simp only [MemoryStore.add_chunks, MemoryStore.check_file_exists]
    simp [List.isEmpty_iff, hne, List.any_append, hany]

/-- Witness for claim C2 at a concrete store and batch. -/
theorem check_file_exists_dedup_witness :
    MemoryStore.check_file_exists Nat
      (MemoryStore.add_chunks Nat none [⟨"t", 7, "/f", 0, 1, "ts", "abc"⟩]) "abc" = true :=
  check_file_exists_dedup.2 Nat none [⟨"t", 7, "/f", 0, 1, "ts", "abc"⟩] "abc"
    ⟨⟨"t", 7, "/f", 0, 1, "ts", "abc"⟩, List.mem_singleton.mpr rfl, rfl⟩

/-- Claim C3: `get_store` for GLOBAL scope on a filesystem where the global
directory does not exist creates the directory and writes the default
configuration file exactly once; a second call on the resulting state makes
no further writes; and a configuration file that already exists is never
overwritten. -/
theorem get_store_global_auto_init :
    ∀ (home : String) (cfg : Config) (ctx : ProjectContext),
      (StorageManager.get_store home cfg ctx ⟨false, none, 0⟩ (some .GLOBAL) =
        (.ok ⟨.GLOBAL, cfg.get_global_dir home⟩, ⟨true, some DEFAULT_CONFIG_TOML, 1⟩)) ∧
      (StorageManager.get_store home cfg ctx ⟨true, some DEFAULT_CONFIG_TOML, 1⟩ (some .GLOBAL) =
        (.ok ⟨.GLOBAL, cfg.get_global_dir home⟩, ⟨true, some DEFAULT_CONFIG_TOML, 1⟩)) ∧
      (∀ (fs : FS) (c : String), fs.globalConfigFile = some c →
        ((StorageManager.get_store home cfg ctx fs (some .GLOBAL)).2).globalConfigFile = some c) := by
  intro home cfg ctx
  refine ⟨rfl, rfl, ?_⟩
  rintro ⟨d, f, w⟩ c hc
  cases hc
  cases d <;>
    simp [StorageManager.get_store, StorageManager.initializeGlobalStore]

/-- Witness for claim C3's never-overwrite clause at a concrete state. -/
theorem get_store_global_auto_init_witness :
    ((StorageManager.get_store "/h" ⟨"m", 384, .LOCAL, true, "/g", ".ragged_memory"⟩ ⟨none⟩
        ⟨false, some "custom", 3⟩ (some .GLOBAL)).2).globalConfigFile = some "custom" :=
  (get_store_global_auto_init "/h" ⟨"m", 384, .LOCAL, true, "/g", ".ragged_memory"⟩ ⟨none⟩).2.2
    ⟨false, some "custom", 3⟩ "custom" rfl

/-- Claim C4: `get_store` for LOCAL scope with no detected project root
fails with the no-project `ValueError`, whose message directs the caller to
the `ram init` command; it leaves the filesystem untouched (no writes), and
the LOCAL path never auto-creates a store even when a root is present. -/
theorem get_store_local_no_project :
    ∀ (home : String) (cfg : Config) (fs : FS),
      (StorageManager.get_store home cfg ⟨none⟩ fs (some .LOCAL)).1 =
        .error "No project detected. Run 'ram init' to create a local store." ∧
      (StorageManager.get_store home cfg ⟨none⟩ fs (some .LOCAL)).2 = fs ∧
      (∃ pre post,
        "No project detected. Run 'ram init' to create a local store." =
          pre ++ "ram init" ++ post) ∧
      (∀ root : String,
        (StorageManager.get_store home cfg ⟨some root⟩ fs (some .LOCAL)).2 = fs) :=
  fun _ _ _ =>
    ⟨rfl, rfl,
      ⟨"No project detected. Run '", "' to create a local store.", by rfl⟩,
      fun _ => rfl⟩

/-- Claim C5: for every starting directory, `detect_project_root`
terminates (it is a total Lean function) and either returns a directory
that is an ancestor-or-self of the starting directory and contains a
`.ragged_memory` or `.git` marker — and is the nearest such ancestor, i.e.
no marker-bearing ancestor-or-self sits strictly closer to the start — or
returns absent, in which case the walk reached the filesystem root without
finding a marker in any non-root ancestor-or-self; in particular it never
returns a descendant of the starting directory. -/
theorem detect_project_root_spec :
    ∀ (hasRagged hasGit : Dir → Bool) (start : Dir),
      (∀ d, detect_project_root hasRagged hasGit start = some d →
        d <:+ start ∧ (hasRagged d = true ∨ hasGit d = true) ∧
        ∀ e, e <:+ start → (hasRagged e = true ∨ hasGit e = true) →
          e.length ≤ d.length) ∧
      (detect_project_root hasRagged hasGit start = none →
        ∀ e, e <:+ start → e ≠ [] → hasRagged e = false ∧ hasGit e = false) := by
  intro R G start
  induction start with
  | nil =>
    constructor
    · intro d hd
      simp [detect_project_root] at hd
    · intro _ e he hne
      exact absurd (List.suffix_nil.mp he) hne
  | cons c rest ih =>
    constructor
    · intro d hd
      cases hR : R (c :: rest) with
      | true =>
        rw [detect_project_root, if_pos hR] at hd
        cases hd
        exact ⟨List.suffix_refl _, Or.inl hR,
          fun e he _ => he.length_le⟩
      | false =>
        cases hG : G (c :: rest) with
        | true =>
          rw [detect_project_root, if_neg (by simp [hR]), if_pos hG] at hd
          cases hd
          exact ⟨List.suffix_refl _, Or.inr hG,
            fun e he _ => he.length_le⟩
        | false =>
          rw [detect_project_root, if_neg (by simp [hR]),
            if_neg (by simp [hG])] at hd
          obtain ⟨hsuf, hmark, hnear⟩ := ih.1 d hd
          refine ⟨hsuf.trans (List.suffix_cons c rest), hmark, ?_⟩
          intro e he hm
          rcases List.suffix_cons_iff.mp he with rfl | he'
          · rcases hm with h | h
            · exact absurd h (by simp [hR])
            · exact absurd h (by simp [hG])
          · exact hnear e he' hm
    · intro hnone e he hne
      cases hR : R (c :: rest) with
      | true => rw [detect_project_root, if_pos hR] at hnone; cases hnone
      | false =>
        cases hG : G (c :: rest) with
        | true =>
          rw [detect_project_root, if_neg (by simp [hR]), if_pos hG] at hnone
          cases hnone
        | false =>
          rw [detect_project_root, if_neg (by simp [hR]),
            if_neg (by simp [hG])] at hnone
          rcases List.suffix_cons_iff.mp he with rfl | he'
          · exact ⟨hR, hG⟩
          · exact ih.2 hnone e he' hne

/-- Witness for claim C5: a concrete filesystem where the marker sits one
level above the starting directory. -/
theorem detect_project_root_spec_witness :
    (["proj", "home"] : Dir) <:+ ["sub", "proj", "home"] ∧
      ((fun d : Dir => d == ["proj", "home"]) ["proj", "home"] = true ∨
        (fun _ : Dir => false) ["proj", "home"] = true) :=
  let h :=
    (detect_project_root_spec (fun d => d == ["proj", "home"]) (fun _ => false)
      ["sub", "proj", "home"]).1 ["proj", "home"] (by decide)
  ⟨h.1, h.2.1⟩

/-- Unfolding equation for `FileIndexer.process_file` with the intermediate
bindings inlined. -/
theorem process_file_def (V : Type) (sha256hex : String → String)
    (clock : Nat → String) (chonkie : String → List ChonkieChunk)
    (encode : List String → List V) (fp content : String) :
    FileIndexer.process_file V sha256hex clock chonkie encode fp content =
      ((FileChunker.chunk (chonkie content)).zip
          (EmbeddingGenerator.generate V encode (FileChunker.chunk (chonkie content)))).enum.map
        (fun ice =>
          { text := ice.2.1.text
            vector := ice.2.2
            file_path := fp
            chunk_index := ice.2.1.chunk_index
            chunk_size := ice.2.1.text.length
            timestamp := clock ice.1
            file_hash := sha256hex content }) := rfl

/-- Counterexample to claim C6: a run over two segments in which the two
clock readings taken inside the record-assembly loop differ produces two
records with different `timestamp` values, so the timestamp is not
captured once per file. -/
theorem process_file_timestamp_cex :
    ∃ e₁ ∈ FileIndexer.process_file Nat (fun s => s)
        (fun n => if n == 0 then "A" else "B")
        (fun _ => [⟨"a", 0⟩, ⟨"b", 1⟩]) (fun _ => [1, 2]) "/f.txt" "ab",
      ∃ e₂ ∈ FileIndexer.process_file Nat (fun s => s)
          (fun n => if n == 0 then "A" else "B")
          (fun _ => [⟨"a", 0⟩, ⟨"b", 1⟩]) (fun _ => [1, 2]) "/f.txt" "ab",
        e₁.timestamp ≠ e₂.timestamp := by decide

/-- Claim C6 amended: `process_file` samples the clock once per record, not
once per file — the `i`-th produced record carries the `i`-th clock reading
of the run, so records from one ingestion carry the same timestamp value
only when those readings happen to coincide. -/
theorem process_file_timestamp_per_record :
    ∀ (V : Type) (sha256hex : String → String) (clock : Nat → String)
      (chonkie : String → List ChonkieChunk) (encode : List String → List V)
      (fp content : String),
      (FileIndexer.process_file V sha256hex clock chonkie encode fp content).map
          (fun e => e.timestamp) =
        (List.range
          (FileIndexer.process_file V sha256hex clock chonkie encode fp content).length).map
          clock := by
  intro V sh clock ck enc fp content
  rw [process_file_def, List.map_map, List.length_map, List.enum_length]
  exact enum_map_index clock _

/-- Counterexample to claim C7: with two segments and a single embedding
vector, `process_file` raises nothing and silently truncates to one
record. -/
theorem process_file_mismatch_cex :
    (FileChunker.chunk [⟨"a", 0⟩, ⟨"b", 1⟩]).length = 2 ∧
    (EmbeddingGenerator.generate Nat (fun _ => [5])
        (FileChunker.chunk [⟨"a", 0⟩, ⟨"b", 1⟩])).length = 1 ∧
    (FileIndexer.process_file Nat (fun s => s) (fun _ => "T")
        (fun _ => [⟨"a", 0⟩, ⟨"b", 1⟩]) (fun _ => [5]) "/f.txt" "ab").length = 1 := by
  decide

/-- Claim C7 amended: `process_file` never fails on a length mismatch
between segments and embedding vectors; it silently truncates to the
shorter sequence (`zip` semantics), producing `min` many records. When the
lengths match it produces exactly one record per segment, with
`chunk_index` the zero-based position of the segment. -/
theorem process_file_zip_semantics :
    ∀ (V : Type) (sha256hex : String → String) (clock : Nat → String)
      (chonkie : String → List ChonkieChunk) (encode : List String → List V)
      (fp content : String),
      (FileIndexer.process_file V sha256hex clock chonkie encode fp content).length =
        (FileChunker.chunk (chonkie content)).length ⊓
          (EmbeddingGenerator.generate V encode (FileChunker.chunk (chonkie content))).length ∧
      ((EmbeddingGenerator.generate V encode (FileChunker.chunk (chonkie content))).length =
          (FileChunker.chunk (chonkie content)).length →
        (FileIndexer.process_file V sha256hex clock chonkie encode fp content).length =
          (chonkie content).length ∧
        (FileIndexer.process_file V sha256hex clock chonkie encode fp content).map
            (fun e => e.chunk_index) =
          List.range (chonkie content).length) := by
  intro V sh clock ck enc fp content
  constructor
  · rw [process_file_def, List.length_map, List.enum_length, List.length_zip]
  · intro hlen
    have hch : (FileChunker.chunk (ck content)).length = (ck content).length := by
      rw [FileChunker.chunk, List.length_map, List.enum_length]
    constructor
    · rw [process_file_def, List.length_map, List.enum_length, List.length_zip,
        hlen, min_self, hch]
    · calc
        (FileIndexer.process_file V sh clock ck enc fp content).map
            (fun e => e.chunk_index)
          = ((FileChunker.chunk (ck content)).zip
              (EmbeddingGenerator.generate V enc (FileChunker.chunk (ck content)))).enum.map
              (fun p => p.2.1.chunk_index) := by
            rw [process_file_def, List.map_map]
            rfl
        _ = ((FileChunker.chunk (ck content)).zip
              (EmbeddingGenerator.generate V enc (FileChunker.chunk (ck content)))).map
              (fun ce => ce.1.chunk_index) :=
            enum_map_value (fun ce : Chunk × V => ce.1.chunk_index) _
        _ = (((FileChunker.chunk (ck content)).zip
              (EmbeddingGenerator.generate V enc (FileChunker.chunk (ck content)))).map
              Prod.fst).map (fun c => c.chunk_index) := by
            rw [List.map_map]
            rfl
        _ = (FileChunker.chunk (ck content)).map (fun c => c.chunk_index) := by
            rw [List.map_fst_zip _ _ (le_of_eq hlen.symm)]
        _ = (ck content).enum.map (fun p => p.1) := by
            rw [FileChunker.chunk, List.map_map]
            rfl
        _ = List.range (ck content).length := by
            rw [← List.enum_map_fst (ck content)]

/-- Witness for claim C7's matched-length clause at a concrete run with two
segments and two vectors. -/
theorem process_file_zip_semantics_witness :
    (FileIndexer.process_file Nat (fun s => s) (fun _ => "T")
        (fun _ => [⟨"a", 0⟩, ⟨"b", 1⟩]) (fun _ => [5, 6]) "/f.txt" "ab").length =
      ([⟨"a", 0⟩, ⟨"b", 1⟩] : List ChonkieChunk).length ∧
    (FileIndexer.process_file Nat (fun s => s) (fun _ => "T")
        (fun _ => [⟨"a", 0⟩, ⟨"b", 1⟩]) (fun _ => [5, 6]) "/f.txt" "ab").map
        (fun e => e.chunk_index) =
      List.range ([⟨"a", 0⟩, ⟨"b", 1⟩] : List ChonkieChunk).length :=
  (process_file_zip_semantics Nat (fun s => s) (fun _ => "T")
      (fun _ => [⟨"a", 0⟩, ⟨"b", 1⟩]) (fun _ => [5, 6]) "/f.txt" "ab").2 rfl

/-- Claim C8: with the configuration file absent, `Config.load` returns the
built-in defaults — embedding model "sentence-transformers/all-MiniLM-L6-v2",
384 vector dimensions, default scope LOCAL, `auto_init_local` true; when
the file exists, every successful load overrides exactly the keys present
in the file, key by key, leaving every unspecified key at its default. -/
theorem config_load_defaults_and_merge :
    (∀ home : String, Config.load home none = .ok
      { embedding_model := "sentence-transformers/all-MiniLM-L6-v2"
        vector_dimensions := 384
        default_scope := .LOCAL
        auto_init_local := true
        global_dir := expanduser home "~/.ragged_memory"
        local_dir := ".ragged_memory" }) ∧
    (∀ (home : String) (f : TomlFile) (c : Config),
      Config.load home (some f) = .ok c →
      c.embedding_model = f.embedding_model.getD "sentence-transformers/all-MiniLM-L6-v2" ∧
      c.vector_dimensions = f.vector_dimensions.getD 384 ∧
      StorageScope.ofValue (f.default_scope.getD "local") = some c.default_scope ∧
      c.auto_init_local = f.auto_init_local.getD true ∧
      c.global_dir = expanduser home (f.global_dir.getD "~/.ragged_memory") ∧
      c.local_dir = f.local_dir.getD ".ragged_memory") := by
  refine ⟨fun _ => rfl, ?_⟩
  intro home f c h
  simp only [Config.load] at h
  cases hv : StorageScope.ofValue (f.default_scope.getD "local") with
  | none => rw [hv] at h; exact absurd h (by simp)
  | some sc =>
    rw [hv] at h
    injection h with h'
    subst h'
    exact ⟨rfl, rfl, rfl, rfl, rfl, rfl⟩

/-- Witness for claim C8's merge clause at a file carrying some keys and
omitting others. -/
theorem config_load_defaults_and_merge_witness :
    ("m" : String) = (some "m").getD "sentence-transformers/all-MiniLM-L6-v2" ∧
    (384 : Nat) = (none : Option Nat).getD 384 ∧
    StorageScope.ofValue ((some "global").getD "local") = some StorageScope.GLOBAL ∧
    (true : Bool) = (none : Option Bool).getD true ∧
    expanduser "/home/u" "~/.ragged_memory" =
      expanduser "/home/u" ((none : Option String).getD "~/.ragged_memory") ∧
    ("x" : String) = (some "x").getD ".ragged_memory" :=
  config_load_defaults_and_merge.2 "/home/u"
    ⟨some "m", none, some "global", none, none, some "x"⟩
    ⟨"m", 384, .GLOBAL, true, expanduser "/home/u" "~/.ragged_memory", "x"⟩ rfl

/-- Claim C9 (implicit): the `add` command's scope determination starts
from `config.default_scope` with neither flag set and only overrides to
LOCAL when a project is detected, so with no flags, no detected project and
the default configuration (`default_scope = LOCAL`) it requests a LOCAL
store and `get_store` fails with the no-project error — while the
documented resolver `get_active_scope` falls back to GLOBAL on the same
inputs. -/
theorem add_scope_divergence :
    ∀ (home : String) (cfg : Config) (fs : FS),
      cfg.default_scope = .LOCAL →
      addCommandScope false false cfg ⟨none⟩ = .LOCAL ∧
      (StorageManager.get_store home cfg ⟨none⟩ fs
          (some (addCommandScope false false cfg ⟨none⟩))).1 =
        .error "No project detected. Run 'ram init' to create a local store." ∧
      get_active_scope false false cfg ⟨none⟩ = .ok .GLOBAL := by
  intro home cfg fs hsc
  have h1 : addCommandScope false false cfg ⟨none⟩ = .LOCAL := by
    simp [addCommandScope, hsc]
  refine ⟨h1, ?_, rfl⟩
  rw [h1]
  rfl

/-- Witness for claim C9 at the default configuration. -/
theorem add_scope_divergence_witness :
    addCommandScope false false
        ⟨"sentence-transformers/all-MiniLM-L6-v2", 384, .LOCAL, true,
          "/home/u/.ragged_memory", ".ragged_memory"⟩ ⟨none⟩ = .LOCAL ∧
    (StorageManager.get_store "/home/u"
        ⟨"sentence-transformers/all-MiniLM-L6-v2", 384, .LOCAL, true,
          "/home/u/.ragged_memory", ".ragged_memory"⟩ ⟨none⟩ ⟨false, none, 0⟩
        (some (addCommandScope false false
          ⟨"sentence-transformers/all-MiniLM-L6-v2", 384, .LOCAL, true,
            "/home/u/.ragged_memory", ".ragged_memory"⟩ ⟨none⟩))).1 =
      .error "No project detected. Run 'ram init' to create a local store." ∧
    get_active_scope false false
        ⟨"sentence-transformers/all-MiniLM-L6-v2", 384, .LOCAL, true,
          "/home/u/.ragged_memory", ".ragged_memory"⟩ ⟨none⟩ = .ok .GLOBAL :=
  add_scope_divergence "/home/u"
    ⟨"sentence-transformers/all-MiniLM-L6-v2", 384, .LOCAL, true,
      "/home/u/.ragged_memory", ".ragged_memory"⟩ ⟨false, none, 0⟩ rfl

/-- Claim C10 (implicit round-trip): loading the configuration text that
`_initialize_global_store` seeds into a fresh global store (parsed as
`defaultConfigToml`) yields exactly the `Config` produced when no
configuration file exists at all. -/
theorem seeded_config_roundtrip :
    ∀ home : String,
      Config.load home (some defaultConfigToml) = Config.load home none :=
  fun _ => rfl

end RaggedMemory
